import Mathlib

/-! PointSetProcessingWidget: event wiring over the visualisation pipeline.

Shallow embedding of `src/GUI/PointSetProcessingWidget.cpp`.

The widget owns handles to external toolkit objects (sources, filters, actors,
a progress bar, a render window, a computation thread).  The embedding keeps,
for each of those objects, exactly what the widget's code sets on it or asks of
it:

* a setter call `obj->SetX(v)` stores `v` in the field `objX` (the value
  forwarded to the object; any post-processing the external object applies to
  it is outside this file);
* a request such as `Render()`, `ResetCamera()`, `start()`, `Update()`,
  `Modified()` increments a counter of requests issued;
* `writer->Write()` appends a record to `writes`; `std::cerr << ...` appends a
  line to `cerr`;
* values obtained from outside (the file dialogs' result, the reader's output
  for a file name, the slider values fixed by `setupUi`) are arguments.

`double`/`float` parameters are only stored and forwarded, never computed
with, so they are represented by rationals.  `GetPoint(0, p0)` on a point set
is an index lookup and is partial: `OpenFile` has no result when the lookup is
out of range.
-/

namespace PointSetProcessing

/-- Numeric parameters forwarded by the widget (slider values, coordinates). -/
abbrev Scalar := Rat

/-- A 3D point or vector (`double p0[3]`). -/
structure Point where
  x : Scalar
  y : Scalar
  z : Scalar
  deriving DecidableEq, Repr

/-- The part of a `vtkPolyData` the widget touches: its points, and the
per-point normals carried by the estimation result. -/
structure PolyData where
  points : List Point
  normals : List Point
  deriving DecidableEq, Repr

/-- Result of `vtkSmartPointer<vtkPolyData>::New()`: an empty data set. -/
def PolyData.New : PolyData := ⟨[], []⟩

/-- Lookup `GetPoint(i, p)`: the `i`-th point; no result when `i` is out of range. -/
def PolyData.GetPoint (pd : PolyData) (i : Nat) : Option Point := pd.points[i]?

/-- Effect of `self->DeepCopy(src)`: the receiver becomes a copy of `src`. -/
def PolyData.DeepCopy (_self src : PolyData) : PolyData := src

/-- Output ports of the pipeline objects the source connects. -/
inductive Port where
  | SphereSourceOutput
  | PointsPolyDataProducer
  | NormalEstimationFilterOutput
  | NormalsPolyDataProducer
  | ArrowSourceOutput
  | ArrowGlyphFilterOutput
  deriving DecidableEq, Repr

/-- Consumers of a pipeline connection made in `SharedConstructor`. -/
inductive Sink where
  | SphereMapper
  | PointsMapper
  | NormalEstimationFilter
  | ArrowGlyphFilterSource
  | ArrowGlyphFilter
  | NormalsMapper
  deriving DecidableEq, Repr

/-- Actors added to the renderer. -/
inductive Actor where
  | PointsActor
  | NormalsActor
  | SphereActor
  deriving DecidableEq, Repr

/-- One completed `vtkXMLPolyDataWriter` use: `SetFileName`, `SetInputConnection`, `Write`. -/
structure WriteCall where
  FileName : String
  InputConnection : Port
  deriving DecidableEq, Repr

/-- The values `setupUi` gives the two sliders before any handler runs. -/
structure Ui where
  sldNeighborRadius : Scalar
  sldArrowSize : Scalar
  deriving DecidableEq, Repr

/-- State of the widget and of the external objects it drives. -/
structure Widget where
  /-- Radius last set on `SphereSource`. -/
  SphereSourceRadius : Scalar
  /-- Number of `SphereSource->Update()` calls. -/
  SphereSourceUpdates : Nat
  /-- Opacity set on the sphere actor's property. -/
  SphereActorOpacity : Scalar
  /-- Position last set on `SphereActor`; `none` while the widget has set none. -/
  SphereActorPosition : Option Point
  /-- Contents of `PointsPolyData`. -/
  PointsPolyData : PolyData
  /-- Number of `PointsPolyData->Modified()` calls. -/
  PointsPolyDataModified : Nat
  /-- Whether `SetModeToRadius()` was selected on the estimation filter. -/
  NormalEstimationFilterModeRadius : Bool
  /-- Radius last set on `NormalEstimationFilter`. -/
  NormalEstimationFilterRadius : Scalar
  /-- Current contents of `NormalEstimationFilter->GetOutput()`. -/
  NormalEstimationFilterOutput : PolyData
  /-- Number of `NormalEstimationThread->start()` calls. -/
  NormalEstimationThreadStarts : Nat
  /-- Contents of `NormalsPolyData`. -/
  NormalsPolyData : PolyData
  /-- Number of `NormalsPolyData->Modified()` calls. -/
  NormalsPolyDataModified : Nat
  /-- Flag set by `ArrowGlyphFilter->OrientOn()`. -/
  ArrowGlyphFilterOrient : Bool
  /-- Flag set by `SetScaleModeToScaleByScalar()`. -/
  ArrowGlyphFilterScaleByScalar : Bool
  /-- Flag set by `SetVectorModeToUseNormal()`. -/
  ArrowGlyphFilterUseNormal : Bool
  /-- Scale factor last set on `ArrowGlyphFilter`. -/
  ArrowGlyphFilterScaleFactor : Scalar
  /-- Number of `ArrowGlyphFilter->Update()` calls. -/
  ArrowGlyphFilterUpdates : Nat
  /-- Pipeline connections made so far. -/
  Connections : List (Port × Sink)
  /-- Actors added to `Renderer`, in order. -/
  RendererViewProps : List Actor
  /-- Number of `Renderer->ResetCamera()` calls. -/
  RendererResetCameras : Nat
  /-- Number of `qvtkWidget->GetRenderWindow()->Render()` calls. -/
  RenderWindowRenders : Nat
  progressBarMinimum : Int
  progressBarMaximum : Int
  progressBarVisible : Bool
  /-- Writer uses completed so far, oldest first. -/
  writes : List WriteCall
  /-- Lines sent to `std::cerr`, oldest first. -/
  cerr : List String
  deriving DecidableEq, Repr

/-- Translation of `PointSetProcessingWidget::SharedConstructor` (lines 32-95). -/
def SharedConstructor (ui : Ui) : Widget :=
  { SphereSourceRadius := ui.sldNeighborRadius
    SphereSourceUpdates := 0
    SphereActorOpacity := 0.2
    SphereActorPosition := none
    PointsPolyData := PolyData.New
    PointsPolyDataModified := 0
    NormalEstimationFilterModeRadius := true
    NormalEstimationFilterRadius := ui.sldNeighborRadius
    NormalEstimationFilterOutput := PolyData.New
    NormalEstimationThreadStarts := 0
    NormalsPolyData := PolyData.New
    NormalsPolyDataModified := 0
    ArrowGlyphFilterOrient := true
    ArrowGlyphFilterScaleByScalar := true
    ArrowGlyphFilterUseNormal := true
    ArrowGlyphFilterScaleFactor := ui.sldArrowSize
    ArrowGlyphFilterUpdates := 1
    Connections :=
      [ (Port.SphereSourceOutput, Sink.SphereMapper),
        (Port.PointsPolyDataProducer, Sink.PointsMapper),
        (Port.PointsPolyDataProducer, Sink.NormalEstimationFilter),
        (Port.ArrowSourceOutput, Sink.ArrowGlyphFilterSource),
        (Port.NormalsPolyDataProducer, Sink.ArrowGlyphFilter),
        (Port.ArrowGlyphFilterOutput, Sink.NormalsMapper) ]
    RendererViewProps := [Actor.PointsActor, Actor.NormalsActor, Actor.SphereActor]
    RendererResetCameras := 0
    RenderWindowRenders := 0
    progressBarMinimum := 0
    progressBarMaximum := 0
    progressBarVisible := false
    writes := []
    cerr := [] }

/-- Translation of `on_btnGenerateNormals_clicked` (lines 97-101). -/
def on_btnGenerateNormals_clicked (w : Widget) : Widget :=
  { w with NormalEstimationThreadStarts := w.NormalEstimationThreadStarts + 1 }

/-- Translation of `on_btnOrientNormals_clicked` (lines 103-106): an empty body. -/
def on_btnOrientNormals_clicked (w : Widget) : Widget := w

/-- Translation of `OpenFile` (lines 121-133).  `reader fileName` is the
output of the `vtkXMLPolyDataReader` after `SetFileName`/`Update`. -/
def OpenFile (reader : String → PolyData) (fileName : String) (w : Widget) :
    Option Widget :=
  let w1 := { w with PointsPolyData := w.PointsPolyData.DeepCopy (reader fileName) }
  let w2 := { w1 with PointsPolyDataModified := w1.PointsPolyDataModified + 1 }
  let w3 := { w2 with RendererResetCameras := w2.RendererResetCameras + 1 }
  match w3.PointsPolyData.GetPoint 0 with
  | none => none
  | some p0 => some { w3 with SphereActorPosition := some p0 }

/-- Translation of `on_actionOpenFile_activated` (lines 108-119).
`dialogFileName` is what `QFileDialog::getOpenFileName` returned. -/
def on_actionOpenFile_activated (reader : String → PolyData) (dialogFileName : String)
    (w : Widget) : Option Widget :=
  if dialogFileName = "" then some w
  else OpenFile reader dialogFileName w

/-- Translation of `on_actionSave_activated` (lines 135-150).
`dialogFileName` is what `QFileDialog::getSaveFileName` returned. -/
def on_actionSave_activated (dialogFileName : String) (w : Widget) : Widget :=
  if dialogFileName = "" then
    { w with cerr := w.cerr ++ ["File not saved."] }
  else
    { w with writes := w.writes ++
        [{ FileName := dialogFileName, InputConnection := Port.NormalEstimationFilterOutput }] }

/-- Translation of `slot_StartProgressBar` (lines 152-155). -/
def slot_StartProgressBar (w : Widget) : Widget :=
  { w with progressBarVisible := true }

/-- Translation of `slot_StopProgressBar` (lines 157-160). -/
def slot_StopProgressBar (w : Widget) : Widget :=
  { w with progressBarVisible := false }

/-- Translation of `slot_NormalEstimationComplete` (lines 162-168). -/
def slot_NormalEstimationComplete (w : Widget) : Widget :=
  let w1 := { w with NormalsPolyData := w.NormalsPolyData.DeepCopy w.NormalEstimationFilterOutput }
  let w2 := { w1 with NormalsPolyDataModified := w1.NormalsPolyDataModified + 1 }
  { w2 with RenderWindowRenders := w2.RenderWindowRenders + 1 }

/-- Translation of `on_sldNeighborRadius_valueChanged` (lines 170-177). -/
def on_sldNeighborRadius_valueChanged (value : Scalar) (w : Widget) : Widget :=
  let w1 := { w with NormalEstimationFilterRadius := value }
  let w2 := { w1 with SphereSourceRadius := value }
  let w3 := { w2 with SphereSourceUpdates := w2.SphereSourceUpdates + 1 }
  { w3 with RenderWindowRenders := w3.RenderWindowRenders + 1 }

/-- Translation of `on_sldArrowSize_valueChanged` (lines 179-185). -/
def on_sldArrowSize_valueChanged (value : Scalar) (w : Widget) : Widget :=
  let w1 := { w with ArrowGlyphFilterScaleFactor := value }
  let w2 := { w1 with ArrowGlyphFilterUpdates := w1.ArrowGlyphFilterUpdates + 1 }
  { w2 with RenderWindowRenders := w2.RenderWindowRenders + 1 }

/-- The two constructors (lines 21-30). -/
inductive Ctor where
  /-- Constructor `PointSetProcessingWidget(QMainWindow *parent)`. -/
  | parent
  /-- Constructor `PointSetProcessingWidget(const std::string& fileName)`. -/
  | fileName (name : String)
  deriving DecidableEq, Repr

/-- Translation of the constructors: `SharedConstructor()`, then `OpenFile(fileName)`
for the file-name constructor. -/
def PointSetProcessingWidget (reader : String → PolyData) (ui : Ui) : Ctor → Option Widget
  | Ctor.parent => some (SharedConstructor ui)
  | Ctor.fileName name => OpenFile reader name (SharedConstructor ui)

/-- Signals of `NormalEstimationThread` connected in `SharedConstructor`. -/
inductive ThreadSignal where
  | StartProgressBarSignal
  | StopProgressBarSignal
  deriving DecidableEq, Repr

/-- The `connect` calls of lines 92-94: the slots run, in connection order, when
the thread's signal is handled. -/
def handleSignal : ThreadSignal → Widget → Widget
  | ThreadSignal.StartProgressBarSignal, w => slot_StartProgressBar w
  | ThreadSignal.StopProgressBarSignal, w => slot_NormalEstimationComplete (slot_StopProgressBar w)

/-- What can happen to a constructed widget: one of its handlers runs, a thread
signal is handled, or (last constructor) the external computation replaces the
contents of the estimation filter's output. -/
inductive Event where
  | actionOpenFile (dialogFileName : String)
  | actionSave (dialogFileName : String)
  | btnGenerateNormals
  | btnOrientNormals
  | sldNeighborRadius (value : Scalar)
  | sldArrowSize (value : Scalar)
  | StartProgressBar
  | StopProgressBar
  | NormalEstimationComplete
  | signal (s : ThreadSignal)
  | filterExecuted (output : PolyData)
  deriving DecidableEq, Repr

/-- One event applied to the widget. -/
def step (reader : String → PolyData) : Event → Widget → Option Widget
  | Event.actionOpenFile name, w => on_actionOpenFile_activated reader name w
  | Event.actionSave name, w => some (on_actionSave_activated name w)
  | Event.btnGenerateNormals, w => some (on_btnGenerateNormals_clicked w)
  | Event.btnOrientNormals, w => some (on_btnOrientNormals_clicked w)
  | Event.sldNeighborRadius v, w => some (on_sldNeighborRadius_valueChanged v w)
  | Event.sldArrowSize v, w => some (on_sldArrowSize_valueChanged v w)
  | Event.StartProgressBar, w => some (slot_StartProgressBar w)
  | Event.StopProgressBar, w => some (slot_StopProgressBar w)
  | Event.NormalEstimationComplete, w => some (slot_NormalEstimationComplete w)
  | Event.signal s, w => some (handleSignal s w)
  | Event.filterExecuted out, w => some { w with NormalEstimationFilterOutput := out }

/-- A sequence of events applied in order; no result once an event has none. -/
def run (reader : String → PolyData) : List Event → Widget → Option Widget
  | [], w => some w
  | e :: es, w =>
    match step reader e w with
    | none => none
    | some w1 => run reader es w1

/-- The thread signal whose progress-bar slot ran, if the event is one. -/
def Event.threadSignal? : Event → Option ThreadSignal
  | Event.StartProgressBar => some ThreadSignal.StartProgressBarSignal
  | Event.StopProgressBar => some ThreadSignal.StopProgressBarSignal
  | Event.signal s => some s
  | _ => none

/-- The most recent thread signal handled in a sequence of events (oldest first),
`prev` being the one before the sequence. -/
def lastThreadSignal (prev : Option ThreadSignal) : List Event → Option ThreadSignal
  | [] => prev
  | e :: es =>
    match e.threadSignal? with
    | some s => lastThreadSignal (some s) es
    | none => lastThreadSignal prev es

/-- A reader for the examples: `cloud.vtp` holds two points; every other name
fails to load and yields the empty data set. -/
def sampleReader (fileName : String) : PolyData :=
  if fileName = "cloud.vtp" then ⟨[⟨1, 2, 3⟩, ⟨4, 5, 6⟩], []⟩ else PolyData.New

/-- Slider values for the examples. -/
def sampleUi : Ui := ⟨2, 1⟩

/-- An estimation result for the examples. -/
def sampleNormals : PolyData := ⟨[⟨1, 2, 3⟩, ⟨4, 5, 6⟩], [⟨0, 0, 1⟩, ⟨0, 1, 0⟩]⟩

/-- A session for the examples: open, move both sliders, click twice, the thread
starts and finishes, save, cancel a save dialog. -/
def sampleSession : List Event :=
  [ Event.actionOpenFile "cloud.vtp",
    Event.sldNeighborRadius 3,
    Event.sldArrowSize 5,
    Event.btnGenerateNormals,
    Event.signal ThreadSignal.StartProgressBarSignal,
    Event.btnGenerateNormals,
    Event.btnOrientNormals,
    Event.filterExecuted sampleNormals,
    Event.signal ThreadSignal.StopProgressBarSignal,
    Event.actionSave "normals.vtp",
    Event.actionSave "",
    Event.StartProgressBar,
    Event.NormalEstimationComplete ]

/-! ## Helper lemmas -/

/-- `OpenFile` on a reader output with a first point: the resulting state. -/
theorem OpenFile_cons (reader : String → PolyData) (fileName : String) (w : Widget)
    (p : Point) (ps : List Point) (h : (reader fileName).points = p :: ps) :
    OpenFile reader fileName w = some
      { w with
        PointsPolyData := reader fileName
        PointsPolyDataModified := w.PointsPolyDataModified + 1
        RendererResetCameras := w.RendererResetCameras + 1
        SphereActorPosition := some p } := by
  simp [OpenFile, PolyData.DeepCopy, PolyData.GetPoint, h]

/-- `OpenFile` on a reader output without points has no result. -/
theorem OpenFile_nil (reader : String → PolyData) (fileName : String) (w : Widget)
    (h : (reader fileName).points = []) : OpenFile reader fileName w = none := by
  simp [OpenFile, PolyData.DeepCopy, PolyData.GetPoint, h]

/-- Fields `OpenFile` leaves alone, whenever it has a result. -/
theorem OpenFile_frame (reader : String → PolyData) (fileName : String) (w w1 : Widget)
    (h : OpenFile reader fileName w = some w1) :
    w1.SphereSourceRadius = w.SphereSourceRadius ∧
    w1.NormalEstimationFilterRadius = w.NormalEstimationFilterRadius ∧
    w1.progressBarVisible = w.progressBarVisible ∧
    w1.progressBarMinimum = w.progressBarMinimum ∧
    w1.progressBarMaximum = w.progressBarMaximum := by
  cases hp : (reader fileName).points with
  | nil => rw [OpenFile_nil reader fileName w hp] at h; cases h
  | cons p ps =>
    rw [OpenFile_cons reader fileName w p ps hp] at h
    cases h
    exact ⟨rfl, rfl, rfl, rfl, rfl⟩

/-- Step lemma: a successful event keeps the two radii equal. -/
theorem step_radius (reader : String → PolyData) (e : Event) (w w1 : Widget)
    (h : step reader e w = some w1)
    (hr : w.SphereSourceRadius = w.NormalEstimationFilterRadius) :
    w1.SphereSourceRadius = w1.NormalEstimationFilterRadius := by
  cases e with
  | actionOpenFile name =>
    simp only [step, on_actionOpenFile_activated] at h
    split at h
    · cases h; exact hr
    · obtain ⟨h1, h2, -⟩ := OpenFile_frame reader name w w1 h
      rw [h1, h2]; exact hr
  | signal s =>
    cases s <;> (simp only [step, Option.some.injEq] at h; subst h; exact hr)
  | actionSave name =>
    simp only [step, on_actionSave_activated, Option.some.injEq] at h
    subst h
    split <;> exact hr
  | sldNeighborRadius v =>
    simp only [step, Option.some.injEq] at h; subst h; rfl
  | _ => (simp only [step, Option.some.injEq] at h; subst h; exact hr)

/-- Step lemma: the progress bar after a successful event. -/
theorem step_progressBar (reader : String → PolyData) (e : Event) (w w1 : Widget)
    (h : step reader e w = some w1) :
    w1.progressBarMinimum = w.progressBarMinimum ∧
    w1.progressBarMaximum = w.progressBarMaximum ∧
    w1.progressBarVisible =
      (match e.threadSignal? with
       | some s => decide (s = ThreadSignal.StartProgressBarSignal)
       | none => w.progressBarVisible) := by
  cases e with
  | actionOpenFile name =>
    simp only [step, on_actionOpenFile_activated] at h
    split at h
    · cases h; exact ⟨rfl, rfl, rfl⟩
    · obtain ⟨-, -, h3, h4, h5⟩ := OpenFile_frame reader name w w1 h
      exact ⟨h4, h5, h3⟩
  | signal s =>
    cases s <;> (simp only [step, Option.some.injEq] at h; subst h; exact ⟨rfl, rfl, rfl⟩)
  | actionSave name =>
    simp only [step, on_actionSave_activated, Option.some.injEq] at h
    subst h
    split <;> exact ⟨rfl, rfl, rfl⟩
  | _ => (simp only [step, Option.some.injEq] at h; subst h; exact ⟨rfl, rfl, rfl⟩)

/-- Both constructors leave the widget in the state `SharedConstructor` set up,
as far as the radii and the progress bar go. -/
theorem constructor_fields (reader : String → PolyData) (ui : Ui) (c : Ctor) (w0 : Widget)
    (h : PointSetProcessingWidget reader ui c = some w0) :
    w0.SphereSourceRadius = ui.sldNeighborRadius ∧
    w0.NormalEstimationFilterRadius = ui.sldNeighborRadius ∧
    w0.progressBarVisible = false ∧
    w0.progressBarMinimum = 0 ∧ w0.progressBarMaximum = 0 := by
  cases c with
  | parent =>
    simp only [PointSetProcessingWidget, Option.some.injEq] at h
    subst h
    exact ⟨rfl, rfl, rfl, rfl, rfl⟩
  | fileName name =>
    obtain ⟨h1, h2, h3, h4, h5⟩ := OpenFile_frame reader name _ w0 h
    exact ⟨h1, h2, h3, h4, h5⟩

/-- Run lemma: the radii stay equal along any successful run. -/
theorem run_radius (reader : String → PolyData) (evs : List Event) :
    ∀ w w1 : Widget, run reader evs w = some w1 →
      w.SphereSourceRadius = w.NormalEstimationFilterRadius →
      w1.SphereSourceRadius = w1.NormalEstimationFilterRadius := by
  induction evs with
  | nil =>
    intro w w1 h hr
    simp only [run, Option.some.injEq] at h
    subst h; exact hr
  | cons e es ih =>
    intro w w1 h hr
    simp only [run] at h
    cases hs : step reader e w with
    | none => rw [hs] at h; cases h
    | some w2 =>
      rw [hs] at h
      exact ih w2 w1 h (step_radius reader e w w2 hs hr)

/-- Run lemma: along any successful run the bar's range is kept and the bar is
visible exactly when the last thread signal handled is the start signal. -/
theorem run_progressBar (reader : String → PolyData) (evs : List Event) :
    ∀ (prev : Option ThreadSignal) (w w1 : Widget), run reader evs w = some w1 →
      (w.progressBarVisible = true ↔ prev = some ThreadSignal.StartProgressBarSignal) →
      w1.progressBarMinimum = w.progressBarMinimum ∧
      w1.progressBarMaximum = w.progressBarMaximum ∧
      (w1.progressBarVisible = true ↔
        lastThreadSignal prev evs = some ThreadSignal.StartProgressBarSignal) := by
  induction evs with
  | nil =>
    intro prev w w1 h hv
    simp only [run, Option.some.injEq] at h
    subst h
    exact ⟨rfl, rfl, hv⟩
  | cons e es ih =>
    intro prev w w1 h hv
    simp only [run] at h
    cases hs : step reader e w with
    | none => rw [hs] at h; cases h
    | some w2 =>
      rw [hs] at h
      obtain ⟨hmin, hmax, hvis⟩ := step_progressBar reader e w w2 hs
      cases ht : e.threadSignal? with
      | none =>
        rw [ht] at hvis
        have hv2 : w2.progressBarVisible = true ↔
            prev = some ThreadSignal.StartProgressBarSignal := by rw [hvis]; exact hv
        obtain ⟨a, b, c⟩ := ih prev w2 w1 h hv2
        refine ⟨a.trans hmin, b.trans hmax, ?_⟩
        simpa [lastThreadSignal, ht] using c
      | some s =>
        rw [ht] at hvis
        have hv2 : w2.progressBarVisible = true ↔
            some s = some ThreadSignal.StartProgressBarSignal := by
          rw [hvis]; simp
        obtain ⟨a, b, c⟩ := ih (some s) w2 w1 h hv2
        refine ⟨a.trans hmin, b.trans hmax, ?_⟩
        simpa [lastThreadSignal, ht] using c

/-! ## Claims -/

/-- C1: `on_actionSave_activated` issues a write exactly when the file name
returned by the save dialog is non-empty.  For a non-empty name it performs
exactly one writer call, with that file name and with the estimation filter's
output port as input, and changes nothing else.  For the empty name it logs
"File not saved.", performs no write and leaves every other field as it was. -/
theorem on_actionSave_activated_write_iff (name : String) (w : Widget) :
    ((∃ c, (on_actionSave_activated name w).writes = w.writes ++ [c]) ↔ name ≠ "") ∧
    (name ≠ "" →
      on_actionSave_activated name w =
        { w with writes := w.writes ++
            [{ FileName := name, InputConnection := Port.NormalEstimationFilterOutput }] }) ∧
    (name = "" →
      (on_actionSave_activated name w).cerr = w.cerr ++ ["File not saved."] ∧
      (on_actionSave_activated name w).writes = w.writes ∧
      { on_actionSave_activated name w with cerr := w.cerr } = w) := by
  by_cases hn : name = ""
  · subst hn
    refine ⟨?_, fun h => absurd rfl h, fun _ => ⟨rfl, rfl, rfl⟩⟩
    constructor
    · rintro ⟨c, hc⟩
      have hl := congrArg List.length hc
      simp [on_actionSave_activated] at hl
    · intro h; exact absurd rfl h
  · have hs : on_actionSave_activated name w =
        { w with writes := w.writes ++
            [{ FileName := name, InputConnection := Port.NormalEstimationFilterOutput }] } := by
      simp [on_actionSave_activated, hn]
    refine ⟨⟨fun _ => hn, fun _ => ⟨_, by rw [hs]⟩⟩, fun _ => hs, fun h => absurd h hn⟩

/-- C1 at concrete inputs: the name "normals.vtp" and the empty name, on the
freshly constructed widget. -/
theorem on_actionSave_activated_write_iff_witness :
    ("normals.vtp" ≠ "" ∧
      (on_actionSave_activated "normals.vtp" (SharedConstructor sampleUi)).writes =
        [{ FileName := "normals.vtp", InputConnection := Port.NormalEstimationFilterOutput }]) ∧
    ((on_actionSave_activated "" (SharedConstructor sampleUi)).cerr = ["File not saved."] ∧
      (on_actionSave_activated "" (SharedConstructor sampleUi)).writes = []) :=
  ⟨⟨by decide,
    congrArg Widget.writes
      ((on_actionSave_activated_write_iff "normals.vtp" (SharedConstructor sampleUi)).2.1
        (by decide))⟩,
   ((on_actionSave_activated_write_iff "" (SharedConstructor sampleUi)).2.2 rfl).1,
   ((on_actionSave_activated_write_iff "" (SharedConstructor sampleUi)).2.2 rfl).2.1⟩

/-- C2: after `on_sldNeighborRadius_valueChanged v` the radius set on the
estimation filter is `v`, the radius set on the neighbourhood sphere is `v`,
and exactly one more render of the render window has been requested. -/
theorem on_sldNeighborRadius_valueChanged_forwards (v : Scalar) (w : Widget) :
    (on_sldNeighborRadius_valueChanged v w).NormalEstimationFilterRadius = v ∧
    (on_sldNeighborRadius_valueChanged v w).SphereSourceRadius = v ∧
    (on_sldNeighborRadius_valueChanged v w).RenderWindowRenders = w.RenderWindowRenders + 1 :=
  ⟨rfl, rfl, rfl⟩

/-- C3: after `slot_NormalEstimationComplete` the displayed normals data equal
the estimation filter's output, exactly one more render has been requested, and
the points data and the filter's radius are unchanged; handling the thread's
stop signal runs this slot (connection of line 94). -/
theorem slot_NormalEstimationComplete_copies (w : Widget) :
    (slot_NormalEstimationComplete w).NormalsPolyData = w.NormalEstimationFilterOutput ∧
    (slot_NormalEstimationComplete w).NormalsPolyData =
      (slot_NormalEstimationComplete w).NormalEstimationFilterOutput ∧
    (slot_NormalEstimationComplete w).RenderWindowRenders = w.RenderWindowRenders + 1 ∧
    (slot_NormalEstimationComplete w).PointsPolyData = w.PointsPolyData ∧
    (slot_NormalEstimationComplete w).NormalEstimationFilterRadius =
      w.NormalEstimationFilterRadius ∧
    (handleSignal ThreadSignal.StopProgressBarSignal w).NormalsPolyData =
      w.NormalEstimationFilterOutput ∧
    (handleSignal ThreadSignal.StopProgressBarSignal w).RenderWindowRenders =
      w.RenderWindowRenders + 1 :=
  ⟨rfl, rfl, rfl, rfl, rfl, rfl, rfl⟩

/-- C5: `on_btnGenerateNormals_clicked` issues exactly one start request to the
estimation thread in every state and changes no other field; in particular a
click after the thread's start signal was handled, and a second click, each
issue a further start request. -/
theorem on_btnGenerateNormals_clicked_unguarded (w : Widget) :
    (on_btnGenerateNormals_clicked w).NormalEstimationThreadStarts =
      w.NormalEstimationThreadStarts + 1 ∧
    { on_btnGenerateNormals_clicked w with
        NormalEstimationThreadStarts := w.NormalEstimationThreadStarts } = w ∧
    (on_btnGenerateNormals_clicked
        (handleSignal ThreadSignal.StartProgressBarSignal
          (on_btnGenerateNormals_clicked w))).NormalEstimationThreadStarts =
      w.NormalEstimationThreadStarts + 2 :=
  ⟨rfl, rfl, rfl⟩

/-- C6: after `on_sldArrowSize_valueChanged v` the scale factor set on the arrow
glyph filter is `v` and exactly one more render has been requested. -/
theorem on_sldArrowSize_valueChanged_forwards (v : Scalar) (w : Widget) :
    (on_sldArrowSize_valueChanged v w).ArrowGlyphFilterScaleFactor = v ∧
    (on_sldArrowSize_valueChanged v w).RenderWindowRenders = w.RenderWindowRenders + 1 :=
  ⟨rfl, rfl⟩

/-- C4: evaluation at a file the reader cannot load (its output has no point).
`OpenFile` copies the empty output and resets the camera, then looks up point 0
of an empty point set: the lookup is out of range and `OpenFile` has no result
state, directly or through the file-name constructor.  The claim promises the
post-state for every file name. -/
theorem OpenFile_missing_file_no_result :
    sampleReader "missing.vtp" = PolyData.New ∧
    (sampleReader "missing.vtp").GetPoint 0 = none ∧
    OpenFile sampleReader "missing.vtp" (SharedConstructor sampleUi) = none ∧
    PointSetProcessingWidget sampleReader sampleUi (Ctor.fileName "missing.vtp") = none := by
  have h : sampleReader "missing.vtp" = PolyData.New := by
    simp [sampleReader]
  have hp : (sampleReader "missing.vtp").points = [] := by rw [h]; rfl
  refine ⟨h, ?_, OpenFile_nil _ _ _ hp,
    OpenFile_nil sampleReader "missing.vtp" (SharedConstructor sampleUi) hp⟩
  simp [PolyData.GetPoint, hp]

/-- C7: when the read fails and yields an empty point set, `OpenFile` does not
run its steps to completion: after the copy and the camera reset the index-0
lookup is out of range, so the sphere is not positioned and there is no result
state.  The claim says the steps complete for every reader outcome. -/
theorem OpenFile_empty_read_no_result (reader : String → PolyData) (fileName : String)
    (w : Widget) (h : (reader fileName).points = []) :
    ({ w with PointsPolyData := reader fileName }).PointsPolyData.GetPoint 0 = none ∧
    OpenFile reader fileName w = none :=
  ⟨by simp [PolyData.GetPoint, h], OpenFile_nil reader fileName w h⟩

/-- C7 at a concrete input: the reader that fails on every name, after a session
that moved the radius slider. -/
theorem OpenFile_empty_read_no_result_witness :
    ((fun _ => PolyData.New) "scan.vtp" : PolyData).points = [] ∧
    OpenFile (fun _ => PolyData.New) "scan.vtp"
      (on_sldNeighborRadius_valueChanged 3 (SharedConstructor sampleUi)) = none :=
  ⟨rfl,
   (OpenFile_empty_read_no_result (fun _ => PolyData.New) "scan.vtp"
      (on_sldNeighborRadius_valueChanged 3 (SharedConstructor sampleUi)) rfl).2⟩

/-- C9: the index-0 lookup made by `OpenFile` is in range exactly when the
reader's output has at least one point (and `OpenFile` has a result exactly
then); when it has, `OpenFile` sets the sphere actor's position to the first
point of the loaded point set. -/
theorem OpenFile_first_point (reader : String → PolyData) (fileName : String) (w : Widget) :
    ((reader fileName).GetPoint 0 ≠ none ↔ (reader fileName).points ≠ []) ∧
    ((OpenFile reader fileName w).isSome = true ↔ (reader fileName).points ≠ []) ∧
    (∀ p ps, (reader fileName).points = p :: ps →
      (reader fileName).GetPoint 0 = some p ∧
      ∃ w1, OpenFile reader fileName w = some w1 ∧
        w1.PointsPolyData = reader fileName ∧
        w1.PointsPolyData.points.head? = some p ∧
        w1.SphereActorPosition = some p) := by
  cases hp : (reader fileName).points with
  | nil =>
    refine ⟨?_, ?_, ?_⟩
    · simp [PolyData.GetPoint, hp]
    · simp [OpenFile_nil reader fileName w hp]
    · intro p ps h; cases h
  | cons q qs =>
    refine ⟨?_, ?_, ?_⟩
    · simp [PolyData.GetPoint, hp]
    · simp [OpenFile_cons reader fileName w q qs hp]
    · intro p ps h
      cases h
      refine ⟨by simp [PolyData.GetPoint, hp], _, OpenFile_cons reader fileName w q qs hp,
        rfl, ?_, rfl⟩
      simp [hp]

/-- C9 at a concrete input: opening `cloud.vtp`, whose first point is (1, 2, 3). -/
theorem OpenFile_first_point_witness :
    (sampleReader "cloud.vtp").points = [⟨1, 2, 3⟩, ⟨4, 5, 6⟩] ∧
    ∃ w1, OpenFile sampleReader "cloud.vtp" (SharedConstructor sampleUi) = some w1 ∧
      w1.SphereActorPosition = some ⟨1, 2, 3⟩ :=
  have h : (sampleReader "cloud.vtp").points = [⟨1, 2, 3⟩, ⟨4, 5, 6⟩] := by
    simp [sampleReader]
  ⟨h,
   match ((OpenFile_first_point sampleReader "cloud.vtp" (SharedConstructor sampleUi)).2.2
      ⟨1, 2, 3⟩ [⟨4, 5, 6⟩] h).2 with
   | ⟨w1, h1, _, _, h4⟩ => ⟨w1, h1, h4⟩⟩

/-- C8: after either constructor the sphere's radius and the estimation filter's
radius both equal the neighbour-radius slider's value, and in every state
reached from there by any sequence of events the sphere's radius equals the
filter's radius. -/
theorem sphere_radius_eq_filter_radius (reader : String → PolyData) (ui : Ui) (c : Ctor)
    (evs : List Event) (w0 w : Widget)
    (h0 : PointSetProcessingWidget reader ui c = some w0)
    (h : run reader evs w0 = some w) :
    w0.SphereSourceRadius = ui.sldNeighborRadius ∧
    w0.NormalEstimationFilterRadius = ui.sldNeighborRadius ∧
    w.SphereSourceRadius = w.NormalEstimationFilterRadius := by
  obtain ⟨h1, h2, -⟩ := constructor_fields reader ui c w0 h0
  exact ⟨h1, h2, run_radius reader evs w0 w h (h1.trans h2.symm)⟩

/-- The sample session runs to the end from the constructed widget. -/
theorem sampleSession_runs :
    (run sampleReader sampleSession (SharedConstructor sampleUi)).isSome = true := by
  decide

/-- C8 at a concrete input: the sample session from the default constructor. -/
theorem sphere_radius_eq_filter_radius_witness :
    ∃ w, run sampleReader sampleSession (SharedConstructor sampleUi) = some w ∧
      w.SphereSourceRadius = w.NormalEstimationFilterRadius :=
  ⟨_, (Option.some_get sampleSession_runs).symm,
   (sphere_radius_eq_filter_radius sampleReader sampleUi Ctor.parent sampleSession
      (SharedConstructor sampleUi) _ rfl (Option.some_get sampleSession_runs).symm).2.2⟩

/-- C10: the progress bar is hidden after construction; in every state reached
by any sequence of events it is visible exactly when the most recent thread
signal handled was the start signal, and its minimum and maximum are 0.
`slot_StartProgressBar` shows it, `slot_StopProgressBar` hides it, and an event
that is no handling of a thread signal leaves its visibility as it was. -/
theorem progressBar_visible_iff_last_signal_start (reader : String → PolyData) (ui : Ui)
    (c : Ctor) (evs : List Event) (w0 w : Widget)
    (h0 : PointSetProcessingWidget reader ui c = some w0)
    (h : run reader evs w0 = some w) :
    w0.progressBarVisible = false ∧
    (w.progressBarVisible = true ↔
      lastThreadSignal none evs = some ThreadSignal.StartProgressBarSignal) ∧
    w.progressBarMinimum = 0 ∧ w.progressBarMaximum = 0 ∧
    (∀ x, (slot_StartProgressBar x).progressBarVisible = true ∧
      (slot_StopProgressBar x).progressBarVisible = false) ∧
    (∀ e x y, e.threadSignal? = none → step reader e x = some y →
      y.progressBarVisible = x.progressBarVisible) := by
  obtain ⟨-, -, hv, hmin, hmax⟩ := constructor_fields reader ui c w0 h0
  have hinit : w0.progressBarVisible = true ↔
      (none : Option ThreadSignal) = some ThreadSignal.StartProgressBarSignal := by
    rw [hv]; simp
  obtain ⟨a, b, d⟩ := run_progressBar reader evs none w0 w h hinit
  refine ⟨hv, d, a.trans hmin, b.trans hmax, fun x => ⟨rfl, rfl⟩, ?_⟩
  intro e x y he hs
  have := (step_progressBar reader e x y hs).2.2
  rw [he] at this
  exact this

/-- C10 at a concrete input: the sample session, whose last thread signal handled
is the start signal, ends with the bar visible. -/
theorem progressBar_visible_iff_last_signal_start_witness :
    ∃ w, run sampleReader sampleSession (SharedConstructor sampleUi) = some w ∧
      w.progressBarVisible = true ∧ w.progressBarMinimum = 0 ∧ w.progressBarMaximum = 0 :=
  have hr := (Option.some_get sampleSession_runs).symm
  have ht := progressBar_visible_iff_last_signal_start sampleReader sampleUi Ctor.parent
    sampleSession (SharedConstructor sampleUi) _ rfl hr
  ⟨_, hr, ht.2.1.mpr (by decide), ht.2.2.1, ht.2.2.2.1⟩

end PointSetProcessing
